import Mathlib

/-!
Shallow embedding of the FlyCast core (src/rideshare.py, src/predict.py,
src/scraper.py) in Lean 4, with theorems checking the natural-language
specification's claims against the code.

Modelling conventions:
* Python floats are modelled as exact rationals (`ℚ`); Python `round`
  (round-half-to-even) is `pyRound` / `round2`.
* Python machine integers are `ℤ` (they are arbitrary-precision anyway).
* External effects (the Google Distance Matrix HTTP call, string `hash`
  randomisation, `datetime.fromisoformat`, the current date) are passed in
  as explicit parameters; file-backed state (the daily quota counter) is
  threaded explicitly through `estimate_to_from_airport`.
-/

namespace FlyCast

/-- Polymorphic association-list lookup, the embedding of Python's
`dict.get(key)` for the small dicts this code uses. -/
def lookupKey {α β : Type} [DecidableEq α] (k : α) : List (α × β) → Option β
  | [] => none
  | (k2, v) :: rest => if k2 = k then some v else lookupKey k rest

/-- Python's built-in `round` with no digits argument: round half to even.
`int(round(x))` in the source is `pyRound x`. -/
def pyRound (q : ℚ) : ℤ :=
  if q - ⌊q⌋ < 1/2 then ⌊q⌋
  else if 1/2 < q - ⌊q⌋ then ⌊q⌋ + 1
  else if ⌊q⌋ % 2 = 0 then ⌊q⌋ else ⌊q⌋ + 1

/-- Python's `round(x, 2)`: round to 2 decimal places, half to even. -/
def round2 (q : ℚ) : ℚ := (pyRound (q * 100) : ℚ) / 100

-- Fare knobs (src/rideshare.py lines 25-31), at their documented env defaults.
def FARE_BASE : ℚ := 2.20
def FARE_PER_MILE : ℚ := 1.25
def FARE_PER_MIN : ℚ := 0.30
def FARE_BOOKING : ℚ := 2.55
def AVG_SPEED_MPH : ℚ := 28

/-- Airports the estimator knows (src/rideshare.py line 41); the model only
needs membership, the shared SAN coordinates do not affect any claim. -/
def AIRPORTS : List String := ["SAN", "KSAN"]

/-- ASCII lowercase/uppercase pairs: the embedding of Python's `str.upper()`
restricted to the ASCII identifiers this program handles. -/
def lowerUpperPairs : List (Char × Char) :=
  [('a', 'A'), ('b', 'B'), ('c', 'C'), ('d', 'D'), ('e', 'E'), ('f', 'F'),
   ('g', 'G'), ('h', 'H'), ('i', 'I'), ('j', 'J'), ('k', 'K'), ('l', 'L'),
   ('m', 'M'), ('n', 'N'), ('o', 'O'), ('p', 'P'), ('q', 'Q'), ('r', 'R'),
   ('s', 'S'), ('t', 'T'), ('u', 'U'), ('v', 'V'), ('w', 'W'), ('x', 'X'),
   ('y', 'Y'), ('z', 'Z')]

/-- Uppercase a single character (ASCII). -/
def pyUpperChar (c : Char) : Char := (lookupKey c lowerUpperPairs).getD c

/-- Python `s.upper()` (ASCII fragment). -/
def pyUpper (s : String) : String := String.mk (s.data.map pyUpperChar)

/-- Python truthiness of an optional string: `None` and `""` are falsy.
Used for `if api_key and address` (src/rideshare.py line 78). -/
def pyTruthy (o : Option String) : Bool := (o.getD "") ≠ ""

/-- Embeds `_speed_factor_for_hour` (src/rideshare.py lines 181-195). -/
def speed_factor_for_hour (hour : ℤ) : ℚ :=
  if hour ∈ ([22, 23, 0, 1, 2, 3, 4, 5] : List ℤ) then 1.15
  else if hour ∈ ([7, 8, 9, 16, 17, 18, 19] : List ℤ) then 0.70
  else if hour ∈ ([6, 10, 11, 12, 13, 14, 15, 20, 21] : List ℤ) then 0.90
  else 1.0

/-- The traffic table exactly as the specification words it (the three hour
sets and the 1.00 fall-through), for comparison with the code's table. -/
def claimed_speed_factor (hour : ℤ) : ℚ :=
  if hour ∈ ([22, 23, 0, 1, 2, 3, 4, 5] : List ℤ) then 1.15
  else if hour ∈ ([7, 8, 9, 16, 17, 18, 19] : List ℤ) then 0.70
  else if hour ∈ ([6, 10, 11, 12, 13, 14, 15, 20, 21] : List ℤ) then 0.90
  else 1.00

/-- The JSON counter record `{day, count}` read from/written to
`COUNTER_FILE`; either key may be missing (`_load_counter` returns `{}` on
any failure). -/
structure CounterData where
  day : Option String
  count : Option ℤ
deriving DecidableEq, Repr

/-- Embeds `_can_call_google_today` (src/rideshare.py lines 218-224), with the
module constant `MAX_GOOGLE_CALLS_PER_DAY`, the current date string and the
loaded counter file contents as explicit arguments. -/
def can_call_google_today (maxCalls : ℤ) (today : String) (data : CounterData) : Bool :=
  if maxCalls ≤ 0 then false
  else if data.day ≠ some today then true
  else data.count.getD 0 < maxCalls

/-- Embeds `_bump_google_counter` (src/rideshare.py lines 226-231) as a pure state
update on the counter record. -/
def bump_google_counter (today : String) (data : CounterData) : CounterData :=
  let d := if data.day ≠ some today then CounterData.mk (some today) (some 0) else data
  { d with count := some (d.count.getD 0 + 1) }

/-- The heuristic fare computation inlined at src/rideshare.py lines
105-109: adjusted speed `max(8.0, AVG_SPEED_MPH * speed_factor)`, minutes
`miles / adj_speed * 60`, fare formula, cost rounded to 2 decimals and
minutes rounded to the nearest integer. -/
def heuristic_quote (miles speedFactor : ℚ) : ℚ × ℤ :=
  (round2 (FARE_BASE + miles * FARE_PER_MILE
      + miles / max 8 (AVG_SPEED_MPH * speedFactor) * 60 * FARE_PER_MIN + FARE_BOOKING),
   pyRound (miles / max 8 (AVG_SPEED_MPH * speedFactor) * 60))

/-- The quote computed from a successful Distance Matrix response
(`_estimate_via_google`, src/rideshare.py lines 148-154): `dist_m` meters
and `dur_s` seconds are the integer `value` fields of the response element
(`dur_s` is `duration_in_traffic` when present, else `duration`). -/
def google_quote (dist_m dur_s : ℤ) : ℚ × ℤ :=
  (round2 (FARE_BASE + (dist_m : ℚ) / 1609.344 * FARE_PER_MILE
      + (dur_s : ℚ) / 60 * FARE_PER_MIN + FARE_BOOKING),
   pyRound ((dur_s : ℚ) / 60))

/-- Holds when `AIRPORTS.get((airport_code or "").upper())` is non-`None`
(src/rideshare.py lines 66-67). -/
def airport_known (airportCode : Option String) : Bool :=
  AIRPORTS.contains (pyUpper (airportCode.getD ""))

/-- The guard of the Google tier (src/rideshare.py line 78):
`api_key and address and _can_call_google_today()`. -/
def google_attempt_cond (apiKey address : Option String) (maxCalls : ℤ)
    (today : String) (counter : CounterData) : Bool :=
  pyTruthy apiKey && pyTruthy address && can_call_google_today maxCalls today counter

/-- The Google tier succeeds (reaches `_bump_google_counter` and `return`,
src/rideshare.py lines 94-95): the guard held, the airport coordinates
exist (`_fmt_coords` raises `ValueError` before any network traffic when
they are `None`, in either direction), and the external call produced an OK
element. -/
def google_success (apiKey address : Option String) (maxCalls : ℤ) (today : String)
    (counter : CounterData) (net : Option (ℤ × ℤ)) (airportCode : Option String) : Bool :=
  google_attempt_cond apiKey address maxCalls today counter
    && airport_known airportCode && net.isSome

/-- The observable outcome of one `estimate_to_from_airport` call: the
returned quote (`None` = "can't estimate"), the counter file contents after
the call, and whether `_estimate_via_google` was invoked. -/
structure RideEstimate where
  quote : Option (ℚ × ℤ)
  counter : CounterData
  googleAttempted : Bool
deriving DecidableEq, Repr

/-- Embeds `estimate_to_from_airport` (src/rideshare.py lines 49-109).

The external world enters as parameters: `net` is the outcome of the
Distance Matrix call (`some (dist_m, dur_s)` for an OK element, `none` for
any network/parse/status failure), `today` is `_today_str()`, `counter` the
loaded counter file, and `hour` the hour `_hour_from_ts` resolves from
`when_hhmm` (always 0-23 at runtime). `direction` only chooses which side
of the external query is the address (lines 80-93); the response is already
abstracted by `net`, so it does not affect the model. -/
def estimate_to_from_airport (apiKey : Option String) (maxCalls : ℤ) (today : String)
    (counter : CounterData) (net : Option (ℤ × ℤ)) (airportCode : Option String)
    (address : Option String) (milesOverride : Option ℚ) (hour : ℤ)
    (direction : String) : RideEstimate :=
  if ¬airport_known airportCode ∧ milesOverride = none then
    -- unknown airport and no miles override: return None (lines 68-71)
    { quote := none, counter := counter, googleAttempted := false }
  else
    match (if google_attempt_cond apiKey address maxCalls today counter then
             (if airport_known airportCode then net else none).map
               (fun p => google_quote p.1 p.2)
           else none) with
    | some q =>
      { quote := some q, counter := bump_google_counter today counter,
        googleAttempted := google_attempt_cond apiKey address maxCalls today counter }
    | none =>
      match milesOverride with
      | none =>
        -- no miles and no Google: can't estimate (lines 101-103)
        { quote := none, counter := counter,
          googleAttempted := google_attempt_cond apiKey address maxCalls today counter }
      | some miles =>
        { quote := some (heuristic_quote miles (speed_factor_for_hour hour)),
          counter := counter,
          googleAttempted := google_attempt_cond apiKey address maxCalls today counter }

/-- A resolved flight record; absent fields are `None` and read back with
the `"Unknown"` default (src/scraper.py `_extract_flight_data`,
src/predict.py `preprocess_flight_data`). -/
structure FlightRecord where
  flight_number : Option String
  airline : Option String
  origin : Option String
  destination : Option String
  scheduled_departure : Option String
  actual_departure : Option String
  status : Option String
deriving DecidableEq, Repr

/-- The leading alphabetic characters of a flight identifier - its carrier code. -/
def carrierCode (s : String) : String := String.mk (s.data.takeWhile Char.isAlpha)

/-- Modelled from the spec: the cached/offline `FlightResolver` of §4.1.
The per-flight mock-directory variant of `FlightDataFetcher` that cli.py
constructs (`FlightDataFetcher(mock_mode=use_mock, mock_dir=mock_dir)`) is
not in src/ - the src/src/scraper.py class takes no `mock_dir` and keeps a
single mock file - so the cached-mode resolution strategy is taken from the
spec's words: exact record keyed by the identifier; else uniformly random
among records sharing the identifier's alphabetic carrier-code prefix; else
uniformly random over the whole cache; not-found only when the cache is
empty. `rng` is the injectable randomness source (§9): the choice from a
pool of `n` candidates is the element at index `rng % n`. -/
def candidate_pool (cache : List (String × FlightRecord)) (ident : String) :
    List (String × FlightRecord) :=
  let candidates := cache.filter fun kv => carrierCode kv.1 = carrierCode ident
  if candidates.isEmpty then cache else candidates

/-- Modelled from the spec (§4.1, cached/offline mode); see
`candidate_pool`. -/
def resolve_cached_flight (rng : ℕ) (cache : List (String × FlightRecord))
    (ident : String) : Option FlightRecord :=
  match lookupKey ident cache with
  | some r => some r
  | none =>
    match candidate_pool cache ident with
    | [] => none
    | p :: ps =>
      some (((p :: ps).get ⟨rng % (p :: ps).length, Nat.mod_lt _ (Nat.succ_pos _)⟩).2)

/-- The three category→index dicts of the model bundle, as read by
`preprocess_flight_data` via `encoders.get(domain, {}).get(value, 0)`. -/
abbrev EncodersDict : Type := List (String × List (String × ℤ))

/-- Embeds `preprocess_flight_data` (src/predict.py lines 34-86). `hashFn` stands
for Python's (seed-randomised) string `hash`; `parseTs` for
`datetime.fromisoformat` on the Z-normalised timestamp, returning
`(hour, weekday)` or `none` on a parse failure. The outer `try/except`
cannot fire in this model because every step is total. -/
def preprocess_flight_data (hashFn : String → ℤ) (parseTs : String → Option (ℤ × ℤ))
    (flight_data : FlightRecord) (encoders : Option EncodersDict) : List ℤ :=
  let origin := flight_data.origin.getD "Unknown"
  let destination := flight_data.destination.getD "Unknown"
  let airline := flight_data.airline.getD "Unknown"
  let scheduled_departure := flight_data.scheduled_departure.getD "Unknown"
  let hw : ℤ × ℤ :=
    if scheduled_departure ≠ "Unknown" then
      match parseTs scheduled_departure with
      | some p => p
      | none => (12, 0)
    else (12, 0)
  let enc3 : ℤ × ℤ × ℤ :=
    -- `if encoders and isinstance(encoders, dict)`: None and {} are falsy
    if (encoders.getD []).isEmpty = false then
      ((lookupKey origin ((lookupKey "origin" (encoders.getD [])).getD [])).getD 0,
       (lookupKey destination ((lookupKey "destination" (encoders.getD [])).getD [])).getD 0,
       (lookupKey airline ((lookupKey "airline" (encoders.getD [])).getD [])).getD 0)
    else
      (hashFn origin % 1000, hashFn destination % 1000, hashFn airline % 1000)
  [enc3.1, enc3.2.1, enc3.2.2, hw.1, hw.2]

/-- Embeds `predict_delay` (src/predict.py lines 88-105). The model artifact is
`none` when missing; an available model is a function from the feature row
to `none` (its `predict` raised - the `except` returns 0) or `some` of the
predicted value. -/
def predict_delay (model : Option (List ℤ → Option ℚ)) (hashFn : String → ℤ)
    (parseTs : String → Option (ℤ × ℤ)) (flight_data : FlightRecord)
    (encoders : Option EncodersDict) : ℚ :=
  match model with
  | none => 0
  | some predictFn =>
    match predictFn (preprocess_flight_data hashFn parseTs flight_data encoders) with
    | none => 0
    | some prediction => prediction

/-! ## Helper lemmas -/

theorem lookupKey_mem {α β : Type} [DecidableEq α] {k : α} {v : β} :
    ∀ {l : List (α × β)}, lookupKey k l = some v → (k, v) ∈ l := by
  intro l
  induction l with
  | nil => intro h; simp [lookupKey] at h
  | cons p rest ih =>
    intro h
    unfold lookupKey at h
    by_cases hk : p.1 = k
    · rw [if_pos hk] at h
      obtain ⟨a, b⟩ := p
      obtain rfl : b = v := Option.some.inj h
      obtain rfl : a = k := hk
      exact List.mem_cons_self _ _
    · rw [if_neg hk] at h
      exact List.mem_cons_of_mem _ (ih h)

theorem pyRound_eq_of_lt_half (q : ℚ) (f : ℤ) (h1 : (f : ℚ) ≤ q) (h2 : q < f + 1)
    (h3 : q - f < 1/2) : pyRound q = f := by
  have hf : ⌊q⌋ = f := Int.floor_eq_iff.2 ⟨h1, h2⟩
  unfold pyRound
  rw [hf, if_pos h3]

theorem pyRound_eq_of_half_lt (q : ℚ) (f : ℤ) (h1 : (f : ℚ) ≤ q) (h2 : q < f + 1)
    (h3 : 1/2 < q - f) : pyRound q = f + 1 := by
  have hf : ⌊q⌋ = f := Int.floor_eq_iff.2 ⟨h1, h2⟩
  unfold pyRound
  rw [hf, if_neg (by linarith), if_pos h3]

theorem pyRound_nonneg (q : ℚ) (h : 0 ≤ q) : 0 ≤ pyRound q := by
  have hf : (0 : ℤ) ≤ ⌊q⌋ := Int.floor_nonneg.2 h
  unfold pyRound
  split_ifs <;> omega

theorem round2_nonneg (q : ℚ) (h : 0 ≤ q) : 0 ≤ round2 q := by
  unfold round2
  have h100 : 0 ≤ pyRound (q * 100) := pyRound_nonneg _ (by positivity)
  positivity

theorem round2_hundredths (q : ℚ) : ∃ k : ℤ, round2 q = (k : ℚ) / 100 :=
  ⟨pyRound (q * 100), rfl⟩

theorem pyUpperChar_idem (c : Char) : pyUpperChar (pyUpperChar c) = pyUpperChar c := by
  unfold pyUpperChar
  cases h : lookupKey c lowerUpperPairs with
  | none => simp only [h, Option.getD_none]
  | some u =>
    have hmem : (c, u) ∈ lowerUpperPairs := lookupKey_mem h
    have hall : ∀ p ∈ lowerUpperPairs, lookupKey p.2 lowerUpperPairs = (none : Option Char) := by
      decide
    have hu : lookupKey u lowerUpperPairs = none := hall (c, u) hmem
    simp only [h, Option.getD_some, hu, Option.getD_none]

theorem pyUpper_idem (s : String) : pyUpper (pyUpper s) = pyUpper s := by
  unfold pyUpper
  congr 1
  show (s.data.map pyUpperChar).map pyUpperChar = s.data.map pyUpperChar
  rw [List.map_map]
  exact List.map_congr_left fun c _ => pyUpperChar_idem c

theorem google_success_iff_true (apiKey address : Option String) (maxCalls : ℤ)
    (today : String) (counter : CounterData) (net : Option (ℤ × ℤ))
    (airportCode : Option String) :
    google_success apiKey address maxCalls today counter net airportCode = true ↔
      google_attempt_cond apiKey address maxCalls today counter = true
        ∧ airport_known airportCode = true ∧ ∃ d t : ℤ, net = some (d, t) := by
  unfold google_success
  cases net with
  | none => simp
  | some p => obtain ⟨d, t⟩ := p; simp

theorem google_success_iff_false (apiKey address : Option String) (maxCalls : ℤ)
    (today : String) (counter : CounterData) (net : Option (ℤ × ℤ))
    (airportCode : Option String) :
    google_success apiKey address maxCalls today counter net airportCode = false ↔
      google_attempt_cond apiKey address maxCalls today counter = false
        ∨ airport_known airportCode = false ∨ net = none := by
  unfold google_success
  cases hg : google_attempt_cond apiKey address maxCalls today counter <;>
    cases hk : airport_known airportCode <;> cases net <;> simp

theorem estimate_unknown_no_miles (apiKey : Option String) (maxCalls : ℤ) (today : String)
    (counter : CounterData) (net : Option (ℤ × ℤ)) (airportCode : Option String)
    (address : Option String) (hour : ℤ) (direction : String)
    (hk : airport_known airportCode = false) :
    estimate_to_from_airport apiKey maxCalls today counter net airportCode address
        none hour direction
      = { quote := none, counter := counter, googleAttempted := false } := by
  unfold estimate_to_from_airport
  rw [if_pos ⟨by simp [hk], rfl⟩]

theorem estimate_google_ok (apiKey : Option String) (maxCalls : ℤ) (today : String)
    (counter : CounterData) (net : Option (ℤ × ℤ)) (airportCode : Option String)
    (address : Option String) (milesOverride : Option ℚ) (hour : ℤ) (direction : String)
    (d t : ℤ) (hnet : net = some (d, t))
    (hatt : google_attempt_cond apiKey address maxCalls today counter = true)
    (hk : airport_known airportCode = true) :
    estimate_to_from_airport apiKey maxCalls today counter net airportCode address
        milesOverride hour direction
      = { quote := some (google_quote d t), counter := bump_google_counter today counter,
          googleAttempted := true } := by
  unfold estimate_to_from_airport
  rw [if_neg (by rintro ⟨h1, -⟩; exact h1 hk)]
  have hsc : (if google_attempt_cond apiKey address maxCalls today counter then
        (if airport_known airportCode then net else none).map (fun p => google_quote p.1 p.2)
      else none) = some (google_quote d t) := by
    rw [hatt, hk, hnet]; simp
  rw [hsc, hatt]

theorem estimate_google_fail_miles (apiKey : Option String) (maxCalls : ℤ) (today : String)
    (counter : CounterData) (net : Option (ℤ × ℤ)) (airportCode : Option String)
    (address : Option String) (milesOverride : Option ℚ) (hour : ℤ) (direction : String)
    (m : ℚ) (hm : milesOverride = some m)
    (hfail : google_attempt_cond apiKey address maxCalls today counter = false
      ∨ airport_known airportCode = false ∨ net = none) :
    estimate_to_from_airport apiKey maxCalls today counter net airportCode address
        milesOverride hour direction
      = { quote := some (heuristic_quote m (speed_factor_for_hour hour)), counter := counter,
          googleAttempted := google_attempt_cond apiKey address maxCalls today counter } := by
  unfold estimate_to_from_airport
  rw [hm, if_neg (by rintro ⟨-, h⟩; exact Option.noConfusion h)]
  have hsc : (if google_attempt_cond apiKey address maxCalls today counter then
        (if airport_known airportCode then net else none).map (fun p => google_quote p.1 p.2)
      else none) = none := by
    rcases hfail with h | h | h <;> simp [h]
  rw [hsc]

theorem estimate_google_fail_no_miles (apiKey : Option String) (maxCalls : ℤ) (today : String)
    (counter : CounterData) (net : Option (ℤ × ℤ)) (airportCode : Option String)
    (address : Option String) (hour : ℤ) (direction : String)
    (hk : airport_known airportCode = true)
    (hfail : google_attempt_cond apiKey address maxCalls today counter = false
      ∨ net = none) :
    estimate_to_from_airport apiKey maxCalls today counter net airportCode address
        none hour direction
      = { quote := none, counter := counter,
          googleAttempted := google_attempt_cond apiKey address maxCalls today counter } := by
  unfold estimate_to_from_airport
  rw [if_neg (by rintro ⟨h1, -⟩; exact h1 hk)]
  have hsc : (if google_attempt_cond apiKey address maxCalls today counter then
        (if airport_known airportCode then net else none).map (fun p => google_quote p.1 p.2)
      else none) = none := by
    rcases hfail with h | h <;> simp [h]
  rw [hsc]

theorem heuristic_quote_wf (miles sf : ℚ) (h : 0 ≤ miles) :
    0 ≤ (heuristic_quote miles sf).1
      ∧ (∃ k : ℤ, (heuristic_quote miles sf).1 = (k : ℚ) / 100)
      ∧ 0 ≤ (heuristic_quote miles sf).2 := by
  have hadj : (0 : ℚ) < max 8 (AVG_SPEED_MPH * sf) :=
    lt_of_lt_of_le (by norm_num) (le_max_left _ _)
  have hmins : 0 ≤ miles / max 8 (AVG_SPEED_MPH * sf) * 60 :=
    mul_nonneg (div_nonneg h hadj.le) (by norm_num)
  have hcost : 0 ≤ FARE_BASE + miles * FARE_PER_MILE
      + miles / max 8 (AVG_SPEED_MPH * sf) * 60 * FARE_PER_MIN + FARE_BOOKING := by
    have h1 : (0 : ℚ) ≤ FARE_BASE := by rw [FARE_BASE]; norm_num
    have h2 : (0 : ℚ) ≤ FARE_PER_MILE := by rw [FARE_PER_MILE]; norm_num
    have h3 : (0 : ℚ) ≤ FARE_PER_MIN := by rw [FARE_PER_MIN]; norm_num
    have h4 : (0 : ℚ) ≤ FARE_BOOKING := by rw [FARE_BOOKING]; norm_num
    have := mul_nonneg h h2
    have := mul_nonneg hmins h3
    linarith
  exact ⟨round2_nonneg _ hcost, round2_hundredths _, pyRound_nonneg _ hmins⟩

theorem google_quote_wf (dist_m dur_s : ℤ) (hd : 0 ≤ dist_m) (ht : 0 ≤ dur_s) :
    0 ≤ (google_quote dist_m dur_s).1
      ∧ (∃ k : ℤ, (google_quote dist_m dur_s).1 = (k : ℚ) / 100)
      ∧ 0 ≤ (google_quote dist_m dur_s).2 := by
  have hd' : (0 : ℚ) ≤ (dist_m : ℚ) := by exact_mod_cast hd
  have ht' : (0 : ℚ) ≤ (dur_s : ℚ) := by exact_mod_cast ht
  have hmiles : 0 ≤ (dist_m : ℚ) / 1609.344 := div_nonneg hd' (by norm_num)
  have hmins : 0 ≤ (dur_s : ℚ) / 60 := div_nonneg ht' (by norm_num)
  have hcost : 0 ≤ FARE_BASE + (dist_m : ℚ) / 1609.344 * FARE_PER_MILE
      + (dur_s : ℚ) / 60 * FARE_PER_MIN + FARE_BOOKING := by
    have h1 : (0 : ℚ) ≤ FARE_BASE := by rw [FARE_BASE]; norm_num
    have h2 : (0 : ℚ) ≤ FARE_PER_MILE := by rw [FARE_PER_MILE]; norm_num
    have h3 : (0 : ℚ) ≤ FARE_PER_MIN := by rw [FARE_PER_MIN]; norm_num
    have h4 : (0 : ℚ) ≤ FARE_BOOKING := by rw [FARE_BOOKING]; norm_num
    have := mul_nonneg hmiles h2
    have := mul_nonneg hmins h3
    linarith
  exact ⟨round2_nonneg _ hcost, round2_hundredths _, pyRound_nonneg _ hmins⟩

theorem heuristic_quote_ten_one : heuristic_quote 10 1 = ((23.68 : ℚ), 21) := by
  unfold heuristic_quote
  have hmax : max (8 : ℚ) (AVG_SPEED_MPH * 1) = 28 := by
    rw [AVG_SPEED_MPH]
    norm_num
  rw [hmax]
  have hmins : (10 : ℚ) / 28 * 60 = 150 / 7 := by norm_num
  rw [hmins]
  have hcost : FARE_BASE + 10 * FARE_PER_MILE + 150 / 7 * FARE_PER_MIN + FARE_BOOKING
      = 663 / 28 := by
    rw [FARE_BASE, FARE_PER_MILE, FARE_PER_MIN, FARE_BOOKING]
    norm_num
  rw [hcost]
  have h2 : round2 (663 / 28) = 23.68 := by
    unfold round2
    have h3 : (663 / 28 : ℚ) * 100 = 16575 / 7 := by norm_num
    rw [h3, pyRound_eq_of_half_lt (16575 / 7) 2367 (by norm_num) (by norm_num) (by norm_num)]
    norm_num
  rw [h2, pyRound_eq_of_lt_half (150 / 7) 21 (by norm_num) (by norm_num) (by norm_num)]

theorem heuristic_quote_neg_ten :
    heuristic_quote (-10) (speed_factor_for_hour 12) = ((-14.89 : ℚ), -24) := by
  have hsf : speed_factor_for_hour 12 = 0.90 := rfl
  rw [hsf]
  unfold heuristic_quote
  have hmax : max (8 : ℚ) (AVG_SPEED_MPH * 0.90) = 126 / 5 := by
    rw [AVG_SPEED_MPH, max_eq_right (by norm_num : (8 : ℚ) ≤ 28 * 0.90)]
    norm_num
  rw [hmax]
  have hmins : (-10 : ℚ) / (126 / 5) * 60 = -500 / 21 := by norm_num
  rw [hmins]
  have hcost : FARE_BASE + (-10) * FARE_PER_MILE + -500 / 21 * FARE_PER_MIN + FARE_BOOKING
      = -417 / 28 := by
    rw [FARE_BASE, FARE_PER_MILE, FARE_PER_MIN, FARE_BOOKING]
    norm_num
  rw [hcost]
  have h2 : round2 (-417 / 28) = -14.89 := by
    unfold round2
    have h3 : (-417 / 28 : ℚ) * 100 = -10425 / 7 := by norm_num
    rw [h3,
      pyRound_eq_of_half_lt (-10425 / 7) (-1490) (by norm_num) (by norm_num) (by norm_num)]
    norm_num
  rw [h2, pyRound_eq_of_lt_half (-500 / 21) (-24) (by norm_num) (by norm_num) (by norm_num)]

/-! ## Claim theorems -/

/-- C6: for every hour 0-23 the code's speed-factor table agrees with the
fixed table the claim states: 1.15 on 22-23 and 0-5, 0.70 on 7-9 and
16-19, 0.90 on 6, 10-15 and 20-21, and 1.00 on the remaining hours (there
are none: the three sets cover 0-23, so the 1.00 case is vacuous). -/
theorem c6_speed_factor_table :
    ∀ h : Fin 24, speed_factor_for_hour ((h : ℕ) : ℤ) = claimed_speed_factor ((h : ℕ) : ℤ) := by
  intro h
  fin_cases h <;> rfl

/-- C4: the quota governor caps Google calls per calendar day with a lazy
rollover. With N = 2, two recorded calls make `canCall` false the same
day; on the next day `canCall` is true again; the next recorded call
resets usage to 0 before incrementing (count becomes 1); and any cap
N ≤ 0 makes `canCall` false for every date and counter state. -/
theorem c4_quota_governor :
    (can_call_google_today 2 "2025-10-01"
        (bump_google_counter "2025-10-01" (bump_google_counter "2025-10-01" ⟨none, none⟩))
      = false)
    ∧ (can_call_google_today 2 "2025-10-02"
        (bump_google_counter "2025-10-01" (bump_google_counter "2025-10-01" ⟨none, none⟩))
      = true)
    ∧ (bump_google_counter "2025-10-02"
        (bump_google_counter "2025-10-01" (bump_google_counter "2025-10-01" ⟨none, none⟩))
      = ⟨some "2025-10-02", some 1⟩)
    ∧ (∀ maxCalls : ℤ, maxCalls ≤ 0 →
        ∀ (today : String) (data : CounterData),
          can_call_google_today maxCalls today data = false) := by
  refine ⟨by decide, by decide, by decide, ?_⟩
  intro maxCalls h today data
  unfold can_call_google_today
  rw [if_pos h]

/-- Witness for C4 at the concrete cap 0. -/
theorem c4_quota_governor_witness :
    can_call_google_today 0 "2025-10-01" ⟨none, none⟩ = false :=
  c4_quota_governor.2.2.2 0 (by decide) "2025-10-01" ⟨none, none⟩

/-- C1 (amended): with the default fare constants, no Google key, and
miles_override = 10 at a speed factor of 1.00 (no hour 0-23 produces
factor 1.00; in the model the out-of-range hour 24 falls through to it),
the quote is 21 minutes and cost 23.68 dollars: the cost formula uses the
unrounded minutes 10/28*60 = 150/7, so
round(2.20 + 10*1.25 + (150/7)*0.30 + 2.55, 2) = 23.68, not 23.05. -/
theorem c1_heuristic_default_quote (maxCalls : ℤ) (today : String) (counter : CounterData)
    (net : Option (ℤ × ℤ)) (hour : ℤ) (direction : String)
    (hsf : speed_factor_for_hour hour = 1) :
    (estimate_to_from_airport none maxCalls today counter net (some "SAN") none
        (some 10) hour direction).quote = some ((23.68 : ℚ), 21) := by
  have he := estimate_google_fail_miles none maxCalls today counter net (some "SAN") none
    (some 10) hour direction 10 rfl (Or.inl rfl)
  rw [he]
  show some (heuristic_quote 10 (speed_factor_for_hour hour)) = some ((23.68 : ℚ), 21)
  rw [hsf, heuristic_quote_ten_one]

/-- Witness for C1 at hour 24 (whose factor is 1.0 in the model). -/
theorem c1_heuristic_default_quote_witness :
    speed_factor_for_hour 24 = 1
    ∧ (estimate_to_from_airport none 100 "2025-10-01" ⟨none, none⟩ none (some "SAN") none
        (some 10) 24 "to_airport").quote = some ((23.68 : ℚ), 21) :=
  ⟨by norm_num [speed_factor_for_hour],
   c1_heuristic_default_quote 100 "2025-10-01" ⟨none, none⟩ none 24 "to_airport"
     (by norm_num [speed_factor_for_hour])⟩

/-- C1 counterexample: granting the claim's premise (speed factor 1.00,
miles_override 10, default constants), the code returns cost 23.68, not
the claimed 23.05 = round(2.20 + 10*1.25 + 21*0.30 + 2.55, 2): the code
feeds the unrounded minutes into the cost formula (and the claim's own
arithmetic is off - even with the rounded 21 minutes the sum is 23.55). -/
theorem c1_counterexample :
    speed_factor_for_hour 24 = 1
    ∧ (estimate_to_from_airport none 100 "2025-10-01" ⟨none, none⟩ none (some "SAN") none
        (some 10) 24 "to_airport").quote = some ((23.68 : ℚ), 21)
    ∧ (23.68 : ℚ) ≠ 23.05 := by
  refine ⟨by norm_num [speed_factor_for_hour], ?_, by norm_num⟩
  have he := estimate_google_fail_miles none 100 "2025-10-01" ⟨none, none⟩ none (some "SAN")
    none (some 10) 24 "to_airport" 10 rfl (Or.inl rfl)
  rw [he]
  show some (heuristic_quote 10 (speed_factor_for_hour 24)) = some ((23.68 : ℚ), 21)
  rw [show speed_factor_for_hour 24 = 1 by norm_num [speed_factor_for_hour],
    heuristic_quote_ten_one]

/-- C3 (amended): the tiers run in strict order with first success
winning. The Google tier is attempted iff a credential is configured, an
address was provided, `canCall()` is true, AND the request survives the
up-front check (known airport or mileage present) - with an unknown
airport and no mileage the function returns `None` before the Google
guard, which is the one correction to the claim's "if and only if". When
the Google tier is skipped or fails, the heuristic runs whenever mileage
is present (even for unsupported airport codes); with no mileage and no
Google success the result is `None`. -/
theorem c3_tier_order (apiKey : Option String) (maxCalls : ℤ) (today : String)
    (counter : CounterData) (net : Option (ℤ × ℤ)) (airportCode address : Option String)
    (milesOverride : Option ℚ) (hour : ℤ) (direction : String) :
    ((estimate_to_from_airport apiKey maxCalls today counter net airportCode address
        milesOverride hour direction).googleAttempted
      = (google_attempt_cond apiKey address maxCalls today counter
          && (airport_known airportCode || milesOverride.isSome)))
    ∧ (∀ m : ℚ, milesOverride = some m →
        google_success apiKey address maxCalls today counter net airportCode = false →
        (estimate_to_from_airport apiKey maxCalls today counter net airportCode address
            milesOverride hour direction).quote
          = some (heuristic_quote m (speed_factor_for_hour hour)))
    ∧ (milesOverride = none →
        google_success apiKey address maxCalls today counter net airportCode = false →
        (estimate_to_from_airport apiKey maxCalls today counter net airportCode address
            milesOverride hour direction).quote = none) := by
  refine ⟨?_, ?_, ?_⟩
  · by_cases hk : airport_known airportCode = true
    · unfold estimate_to_from_airport
      rw [if_neg (by rintro ⟨h1, -⟩; exact h1 hk)]
      rw [hk]
      simp only [Bool.true_or, Bool.and_true]
      split
      · rfl
      · rcases milesOverride with _ | m <;> rfl
    · have hk1 : airport_known airportCode = false := by
        revert hk; cases airport_known airportCode <;> simp
      rcases hmo : milesOverride with _ | m
      · rw [estimate_unknown_no_miles apiKey maxCalls today counter net airportCode address
          hour direction hk1]
        simp [hk1]
      · unfold estimate_to_from_airport
        rw [if_neg (by rintro ⟨-, h⟩; exact Option.noConfusion h)]
        rw [hk1]
        simp only [Bool.false_or, Option.isSome_some, Bool.and_true]
        split
        · rfl
        · rfl
  · intro m hm hfail
    rw [estimate_google_fail_miles apiKey maxCalls today counter net airportCode address
      milesOverride hour direction m hm
      ((google_success_iff_false _ _ _ _ _ _ _).1 hfail)]
  · intro hm hfail
    by_cases hk : airport_known airportCode = true
    · have hfail2 : google_attempt_cond apiKey address maxCalls today counter = false
          ∨ net = none := by
        rcases (google_success_iff_false _ _ _ _ _ _ _).1 hfail with h | h | h
        · exact Or.inl h
        · rw [hk] at h; exact absurd h (by simp)
        · exact Or.inr h
      rw [hm, estimate_google_fail_no_miles apiKey maxCalls today counter net airportCode
        address hour direction hk hfail2]
    · have hk1 : airport_known airportCode = false := by
        revert hk; cases airport_known airportCode <;> simp
      rw [hm, estimate_unknown_no_miles apiKey maxCalls today counter net airportCode address
        hour direction hk1]

/-- Witness for C3: with no credential, the heuristic tier answers a
10-mile request. -/
theorem c3_tier_order_witness :
    (estimate_to_from_airport none 100 "2025-10-01" ⟨none, none⟩ none (some "SAN") none
        (some 10) 24 "to_airport").quote = some ((23.68 : ℚ), 21) := by
  have h := (c3_tier_order none 100 "2025-10-01" ⟨none, none⟩ none (some "SAN") none
      (some 10) 24 "to_airport").2.1 10 rfl (by decide)
  rw [h, show speed_factor_for_hour 24 = 1 by norm_num [speed_factor_for_hour],
    heuristic_quote_ten_one]

/-- C3 counterexample: a configured key, an address and available quota do
NOT suffice for the Google tier to be attempted - with an unknown airport
code and no mileage the request is rejected before the Google guard. -/
theorem c3_counterexample :
    estimate_to_from_airport (some "key") 100 "2025-10-01" ⟨none, none⟩ (some (1000, 600))
        (some "LAX") (some "1 Main St") none 12 "to_airport"
      = { quote := none, counter := ⟨none, none⟩, googleAttempted := false }
    ∧ google_attempt_cond (some "key") (some "1 Main St") 100 "2025-10-01" ⟨none, none⟩
      = true := by
  exact ⟨by decide, by decide⟩

/-- C7: the daily counter is written back exactly when the Google tier
succeeds (then it equals the bumped state); on every failure - guard
false, unknown airport, external error - and on the early return, the
stored counter is unchanged. -/
theorem c7_counter_frame (apiKey : Option String) (maxCalls : ℤ) (today : String)
    (counter : CounterData) (net : Option (ℤ × ℤ)) (airportCode address : Option String)
    (milesOverride : Option ℚ) (hour : ℤ) (direction : String) :
    (google_success apiKey address maxCalls today counter net airportCode = true →
      (estimate_to_from_airport apiKey maxCalls today counter net airportCode address
          milesOverride hour direction).counter = bump_google_counter today counter)
    ∧ (google_success apiKey address maxCalls today counter net airportCode = false →
      (estimate_to_from_airport apiKey maxCalls today counter net airportCode address
          milesOverride hour direction).counter = counter) := by
  constructor
  · intro hs
    obtain ⟨hatt, hk, d, t, hnet⟩ := (google_success_iff_true _ _ _ _ _ _ _).1 hs
    rw [estimate_google_ok apiKey maxCalls today counter net airportCode address milesOverride
      hour direction d t hnet hatt hk]
  · intro hs
    have hfail := (google_success_iff_false _ _ _ _ _ _ _).1 hs
    by_cases hk : airport_known airportCode = true
    · rcases hmo : milesOverride with _ | m
      · have hfail2 : google_attempt_cond apiKey address maxCalls today counter = false
            ∨ net = none := by
          rcases hfail with h | h | h
          · exact Or.inl h
          · rw [hk] at h; exact absurd h (by simp)
          · exact Or.inr h
        rw [estimate_google_fail_no_miles apiKey maxCalls today counter net airportCode
          address hour direction hk hfail2]
      · rw [estimate_google_fail_miles apiKey maxCalls today counter net airportCode address
          (some m) hour direction m rfl hfail]
    · have hk1 : airport_known airportCode = false := by
        revert hk; cases airport_known airportCode <;> simp
      rcases hmo : milesOverride with _ | m
      · rw [estimate_unknown_no_miles apiKey maxCalls today counter net airportCode address
          hour direction hk1]
      · rw [estimate_google_fail_miles apiKey maxCalls today counter net airportCode address
          (some m) hour direction m rfl hfail]

/-- Witness for C7: a successful Google call bumps the counter. -/
theorem c7_counter_frame_witness :
    (estimate_to_from_airport (some "key") 100 "2025-10-01" ⟨none, none⟩ (some (1609, 600))
        (some "SAN") (some "1 Main St") none 12 "to_airport").counter
      = bump_google_counter "2025-10-01" ⟨none, none⟩ :=
  (c7_counter_frame (some "key") 100 "2025-10-01" ⟨none, none⟩ (some (1609, 600)) (some "SAN")
      (some "1 Main St") none 12 "to_airport").1 (by decide)

/-- C5 (amended): whenever a quote is returned and the inputs that enter
the fare formula are non-negative (the supplied miles_override and the
provider's distance/duration), the cost is a non-negative 2-decimal value
and the duration a non-negative integer. The unamended claim - over every
input - is false: a negative miles_override flows straight into the
formula (see the counterexample). -/
theorem c5_quote_wellformed (apiKey : Option String) (maxCalls : ℤ) (today : String)
    (counter : CounterData) (net : Option (ℤ × ℤ)) (airportCode address : Option String)
    (milesOverride : Option ℚ) (hour : ℤ) (direction : String)
    (hmiles : ∀ m : ℚ, milesOverride = some m → 0 ≤ m)
    (hnet : ∀ d t : ℤ, net = some (d, t) → 0 ≤ d ∧ 0 ≤ t) :
    ∀ (c : ℚ) (m : ℤ),
      (estimate_to_from_airport apiKey maxCalls today counter net airportCode address
          milesOverride hour direction).quote = some (c, m) →
        0 ≤ c ∧ (∃ k : ℤ, c = (k : ℚ) / 100) ∧ 0 ≤ m := by
  intro c m hq
  by_cases hs : google_success apiKey address maxCalls today counter net airportCode = true
  · obtain ⟨hatt, hk, d, t, hnet1⟩ := (google_success_iff_true _ _ _ _ _ _ _).1 hs
    rw [estimate_google_ok apiKey maxCalls today counter net airportCode address milesOverride
      hour direction d t hnet1 hatt hk] at hq
    have hq1 : google_quote d t = (c, m) := by simpa using hq
    obtain ⟨hd, ht⟩ := hnet d t hnet1
    have hwf := google_quote_wf d t hd ht
    rw [hq1] at hwf
    exact hwf
  · have hs1 : google_success apiKey address maxCalls today counter net airportCode = false := by
      revert hs; cases google_success apiKey address maxCalls today counter net airportCode <;>
        simp
    have hfail := (google_success_iff_false _ _ _ _ _ _ _).1 hs1
    rcases hmo : milesOverride with _ | mi
    · rw [hmo] at hq
      by_cases hk : airport_known airportCode = true
      · have hfail2 : google_attempt_cond apiKey address maxCalls today counter = false
            ∨ net = none := by
          rcases hfail with h | h | h
          · exact Or.inl h
          · rw [hk] at h; exact absurd h (by simp)
          · exact Or.inr h
        rw [estimate_google_fail_no_miles apiKey maxCalls today counter net airportCode
          address hour direction hk hfail2] at hq
        simp at hq
      · have hk1 : airport_known airportCode = false := by
          revert hk; cases airport_known airportCode <;> simp
        rw [estimate_unknown_no_miles apiKey maxCalls today counter net airportCode address
          hour direction hk1] at hq
        simp at hq
    · rw [hmo] at hq
      rw [estimate_google_fail_miles apiKey maxCalls today counter net airportCode address
        (some mi) hour direction mi rfl hfail] at hq
      have hq1 : heuristic_quote mi (speed_factor_for_hour hour) = (c, m) := by simpa using hq
      have hwf := heuristic_quote_wf mi (speed_factor_for_hour hour) (hmiles mi hmo)
      rw [hq1] at hwf
      exact hwf

/-- Witness for C5 on the 10-mile heuristic quote. -/
theorem c5_quote_wellformed_witness :
    0 ≤ (23.68 : ℚ) ∧ (∃ k : ℤ, (23.68 : ℚ) = (k : ℚ) / 100) ∧ (0 : ℤ) ≤ 21 := by
  refine c5_quote_wellformed none 100 "2025-10-01" ⟨none, none⟩ none (some "SAN") none
      (some 10) 24 "to_airport" ?_ ?_ 23.68 21 ?_
  · intro m hm
    obtain rfl : (10 : ℚ) = m := Option.some.inj hm
    norm_num
  · intro d t ht
    exact Option.noConfusion ht
  · have he := estimate_google_fail_miles none 100 "2025-10-01" ⟨none, none⟩ none (some "SAN")
      none (some 10) 24 "to_airport" 10 rfl (Or.inl rfl)
    rw [he]
    show some (heuristic_quote 10 (speed_factor_for_hour 24)) = some ((23.68 : ℚ), 21)
    rw [show speed_factor_for_hour 24 = 1 by norm_num [speed_factor_for_hour],
      heuristic_quote_ten_one]

/-- C5 counterexample: miles_override = -10 at hour 12 (factor 0.90) is
accepted and yields a quote with negative cost (-14.89) and negative
duration (-24), violating the claimed non-negativity for arbitrary
inputs. -/
theorem c5_counterexample :
    (estimate_to_from_airport none 100 "2025-10-01" ⟨none, none⟩ none (some "SAN") none
        (some (-10)) 12 "to_airport").quote = some ((-14.89 : ℚ), -24)
    ∧ ¬(0 ≤ (-14.89 : ℚ)) ∧ ¬((0 : ℤ) ≤ -24) := by
  refine ⟨?_, by norm_num, by norm_num⟩
  have he := estimate_google_fail_miles none 100 "2025-10-01" ⟨none, none⟩ none (some "SAN")
    none (some (-10)) 12 "to_airport" (-10) rfl (Or.inl rfl)
  rw [he]
  show some (heuristic_quote (-10) (speed_factor_for_hour 12)) = some ((-14.89 : ℚ), -24)
  rw [heuristic_quote_neg_ten]

/-- C10: the airport code is upper-cased before lookup, so every code
behaves exactly like its upper-cased form, and a `None` code behaves
exactly like any unknown code (all downstream tiers see only the
known/unknown bit). -/
theorem c10_code_normalization :
    (∀ (s : String) (apiKey : Option String) (maxCalls : ℤ) (today : String)
        (counter : CounterData) (net : Option (ℤ × ℤ)) (address : Option String)
        (milesOverride : Option ℚ) (hour : ℤ) (direction : String),
      estimate_to_from_airport apiKey maxCalls today counter net (some s) address
          milesOverride hour direction
        = estimate_to_from_airport apiKey maxCalls today counter net (some (pyUpper s))
            address milesOverride hour direction)
    ∧ (∀ (s : String) (apiKey : Option String) (maxCalls : ℤ) (today : String)
        (counter : CounterData) (net : Option (ℤ × ℤ)) (address : Option String)
        (milesOverride : Option ℚ) (hour : ℤ) (direction : String),
        airport_known (some s) = false →
      estimate_to_from_airport apiKey maxCalls today counter net (some s) address
          milesOverride hour direction
        = estimate_to_from_airport apiKey maxCalls today counter net none address
            milesOverride hour direction) := by
  constructor
  · intro s apiKey maxCalls today counter net address milesOverride hour direction
    have hk : airport_known (some (pyUpper s)) = airport_known (some s) := by
      unfold airport_known
      simp only [Option.getD_some]
      rw [pyUpper_idem]
    unfold estimate_to_from_airport
    rw [hk]
  · intro s apiKey maxCalls today counter net address milesOverride hour direction h
    have hnone : airport_known (none : Option String) = false := rfl
    unfold estimate_to_from_airport
    rw [h, hnone]

/-- Witness for C10: the unknown code "LAX" behaves like a `None` code. -/
theorem c10_code_normalization_witness :
    estimate_to_from_airport none 100 "2025-10-01" ⟨none, none⟩ none (some "LAX") none
        (some 10) 24 "to_airport"
      = estimate_to_from_airport none 100 "2025-10-01" ⟨none, none⟩ none none none
          (some 10) 24 "to_airport" :=
  c10_code_normalization.2 "LAX" none 100 "2025-10-01" ⟨none, none⟩ none none (some 10) 24
    "to_airport" (by decide)

/-- C2 (spec-modelled, see `resolve_cached_flight`): in cached/offline
mode, an empty cache resolves to not-found; an exact record keyed by the
identifier is returned as-is; otherwise the result is the `rng`-selected
element of the candidate pool - the records sharing the identifier's
alphabetic carrier-code prefix when any exist, else the whole cache - with
every pool element selected by some `rng` (uniform choice with injectable
randomness), so a non-empty cache never yields not-found. -/
theorem c2_cached_resolver (rng : ℕ) (cache : List (String × FlightRecord)) (ident : String) :
    (cache = [] → resolve_cached_flight rng cache ident = none)
    ∧ (∀ r, lookupKey ident cache = some r → resolve_cached_flight rng cache ident = some r)
    ∧ (lookupKey ident cache = none →
        resolve_cached_flight rng cache ident
          = ((candidate_pool cache ident).get?
              (rng % (candidate_pool cache ident).length)).map Prod.snd)
    ∧ (∀ i : ℕ, lookupKey ident cache = none → i < (candidate_pool cache ident).length →
        resolve_cached_flight i cache ident
          = ((candidate_pool cache ident).get? i).map Prod.snd)
    ∧ ((cache.filter fun kv => carrierCode kv.1 = carrierCode ident) ≠ [] →
        candidate_pool cache ident
          = cache.filter fun kv => carrierCode kv.1 = carrierCode ident)
    ∧ ((cache.filter fun kv => carrierCode kv.1 = carrierCode ident) = [] →
        candidate_pool cache ident = cache)
    ∧ (cache ≠ [] → resolve_cached_flight rng cache ident ≠ none) := by
  have hsel : ∀ rn : ℕ, lookupKey ident cache = none →
      resolve_cached_flight rn cache ident
        = ((candidate_pool cache ident).get?
            (rn % (candidate_pool cache ident).length)).map Prod.snd := by
    intro rn hl
    unfold resolve_cached_flight
    rw [hl]
    cases hp : candidate_pool cache ident with
    | nil => rfl
    | cons p ps =>
      rw [List.get?_eq_get (Nat.mod_lt _ (by simp : 0 < (p :: ps).length))]
      rfl
  have hexact : ∀ r, lookupKey ident cache = some r →
      resolve_cached_flight rng cache ident = some r := by
    intro r hl
    unfold resolve_cached_flight
    rw [hl]
  have hpool_ne : cache ≠ [] → candidate_pool cache ident ≠ [] := by
    intro hc
    by_cases hie : (cache.filter fun kv => carrierCode kv.1 = carrierCode ident).isEmpty = true
    · simp only [candidate_pool, if_pos hie]
      exact hc
    · simp only [candidate_pool, if_neg hie]
      intro hn
      exact hie (by rw [hn]; rfl)
  refine ⟨?_, hexact, hsel rng, ?_, ?_, ?_, ?_⟩
  · intro h
    subst h
    rfl
  · intro i hl hi
    rw [hsel i hl, Nat.mod_eq_of_lt hi]
  · intro h
    simp only [candidate_pool]
    rw [if_neg (fun he => h (List.isEmpty_iff.1 he))]
  · intro h
    simp only [candidate_pool]
    rw [h]
    rfl
  · intro hc
    cases hl : lookupKey ident cache with
    | some r =>
      rw [hexact r hl]
      simp
    | none =>
      rw [hsel rng hl]
      have hlen : 0 < (candidate_pool cache ident).length :=
        List.length_pos.2 (hpool_ne hc)
      rw [List.get?_eq_get (Nat.mod_lt _ hlen)]
      simp

/-- Witness for C2: a prefix match is served from the carrier pool. -/
theorem c2_cached_resolver_witness :
    resolve_cached_flight 5
        [("WN673", ⟨some "WN673", some "WN", some "SAN", some "LAS", none, none, none⟩),
         ("UA2405", ⟨some "UA2405", some "UA", some "SFO", some "EWR", none, none, none⟩)]
        "WN1254"
      = some ⟨some "WN673", some "WN", some "SAN", some "LAS", none, none, none⟩ := by
  have h := (c2_cached_resolver 5
      [("WN673", ⟨some "WN673", some "WN", some "SAN", some "LAS", none, none, none⟩),
       ("UA2405", ⟨some "UA2405", some "UA", some "SFO", some "EWR", none, none, none⟩)]
      "WN1254").2.2.1 (by decide)
  rw [h]
  rfl

/-- C8: predict_delay is total and maps every failure to 0.0: with no
model (the `model.predict` attribute error is swallowed) it returns 0,
with a model whose inference raises it returns 0, and with a succeeding
model it returns the model's output - the numeric contract never
propagates an exception (in this total embedding every value is a finite
rational). -/
theorem c8_predict_total (hashFn : String → ℤ) (parseTs : String → Option (ℤ × ℤ))
    (flight_data : FlightRecord) (encoders : Option EncodersDict) :
    (predict_delay none hashFn parseTs flight_data encoders = 0)
    ∧ (∀ f : List ℤ → Option ℚ,
        f (preprocess_flight_data hashFn parseTs flight_data encoders) = none →
        predict_delay (some f) hashFn parseTs flight_data encoders = 0)
    ∧ (∀ (f : List ℤ → Option ℚ) (q : ℚ),
        f (preprocess_flight_data hashFn parseTs flight_data encoders) = some q →
        predict_delay (some f) hashFn parseTs flight_data encoders = q) := by
  refine ⟨rfl, ?_, ?_⟩
  · intro f hf
    have hdef : predict_delay (some f) hashFn parseTs flight_data encoders
        = match f (preprocess_flight_data hashFn parseTs flight_data encoders) with
          | none => (0 : ℚ)
          | some prediction => prediction := rfl
    rw [hdef, hf]
  · intro f q hf
    have hdef : predict_delay (some f) hashFn parseTs flight_data encoders
        = match f (preprocess_flight_data hashFn parseTs flight_data encoders) with
          | none => (0 : ℚ)
          | some prediction => prediction := rfl
    rw [hdef, hf]

/-- Witness for C8: an all-Unknown record, no encoders, and a raising
model still produce 0. -/
theorem c8_predict_total_witness :
    predict_delay (some fun _ => none) (fun _ => 0) (fun _ => none)
        ⟨none, none, none, none, none, none, none⟩ none = 0 :=
  (c8_predict_total (fun _ => 0) (fun _ => none)
      ⟨none, none, none, none, none, none, none⟩ none).2.1 (fun _ => none) rfl

/-- C9 (amended): when a NON-EMPTY encoder table is supplied, every
origin, destination or airline value absent from its domain mapping
encodes to index 0, never an error. (The unamended claim fails for the
empty table, which the code treats as "no encoders" and routes to the
hash fallback - see the counterexample.) -/
theorem c9_unseen_zero (hashFn : String → ℤ) (parseTs : String → Option (ℤ × ℤ))
    (flight_data : FlightRecord) (enc : EncodersDict) (hne : enc ≠ []) :
    (lookupKey (flight_data.origin.getD "Unknown")
        ((lookupKey "origin" enc).getD []) = none →
      ∃ t, preprocess_flight_data hashFn parseTs flight_data (some enc) = 0 :: t)
    ∧ (lookupKey (flight_data.destination.getD "Unknown")
        ((lookupKey "destination" enc).getD []) = none →
      ∃ a t, preprocess_flight_data hashFn parseTs flight_data (some enc) = a :: 0 :: t)
    ∧ (lookupKey (flight_data.airline.getD "Unknown")
        ((lookupKey "airline" enc).getD []) = none →
      ∃ a b t, preprocess_flight_data hashFn parseTs flight_data (some enc)
        = a :: b :: 0 :: t) := by
  have henc : enc.isEmpty = false := by
    rcases enc with _ | ⟨p, ps⟩
    · exact absurd rfl hne
    · rfl
  refine ⟨?_, ?_, ?_⟩
  · intro h
    simp only [preprocess_flight_data, Option.getD_some]
    rw [if_pos henc, h]
    exact ⟨_, rfl⟩
  · intro h
    simp only [preprocess_flight_data, Option.getD_some]
    rw [if_pos henc, h]
    exact ⟨_, _, rfl⟩
  · intro h
    simp only [preprocess_flight_data, Option.getD_some]
    rw [if_pos henc, h]
    exact ⟨_, _, _, rfl⟩

/-- Witness for C9: a non-empty table that does not know origin "ABC"
encodes it to 0. -/
theorem c9_unseen_zero_witness :
    ∃ t, preprocess_flight_data (fun _ => 7) (fun _ => none)
        ⟨none, none, some "ABC", some "XYZ", none, none, none⟩
        (some [("origin", [("SAN", 3)])]) = 0 :: t :=
  (c9_unseen_zero (fun _ => 7) (fun _ => none)
      ⟨none, none, some "ABC", some "XYZ", none, none, none⟩
      [("origin", [("SAN", 3)])] (by decide)).1 (by decide)

/-- C9 counterexample: supplying the EMPTY encoder table (exactly what
`load_model` returns for a bundle without encoders) does not give index 0
for unseen values - the code's truthiness test routes the empty dict to
the hash fallback, so origin "ABC" (absent from the empty domain mapping)
encodes to hash("ABC") % 1000, here 7 ≠ 0. -/
theorem c9_counterexample :
    preprocess_flight_data (fun _ => 7) (fun _ => none)
        ⟨none, none, some "ABC", some "XYZ", none, none, none⟩ (some ([] : EncodersDict))
      = [7, 7, 7, 12, 0]
    ∧ lookupKey "ABC" ((lookupKey "origin" ([] : EncodersDict)).getD []) = none
    ∧ (7 : ℤ) ≠ 0 :=
  ⟨rfl, rfl, by decide⟩

end FlyCast
